import Mathlib

/-!
Verification development for the off-chain execution channel core
(dubhe-channel).  The definitions below are shallow embeddings of the
Rust sources:

* `crates/vm-runtime/src/ckb_complete.rs`  — the reference RISC-V VM
  (`CompleteCkbVmInstance`): registers, instruction decode/execute,
  the fetch loop, `load_code`, `snapshot`/`restore`;
* `crates/vm-runtime/src/ckb.rs`           — the simplified `CkbVmInstance`
  used by the session manager;
* `crates/scheduler/src/conflict.rs`       — `ConflictAnalyzer::analyze`;
* `crates/scheduler/src/solana_strategy.rs`— `SolanaStrategy::plan_execution`;
* `crates/vm-runtime/src/predictive_execution.rs` — the prediction cache;
* `crates/loader/src/lib.rs` and `cache.rs`— `CodeLoader::load_contract`
  and the two-tier compilation cache;
* `crates/node/src/offchain_execution.rs`  — `OffchainExecutionManager`.

Machine integers are modelled as `Nat` with explicit `% 2^w` at the points
where the Rust code wraps ( `wrapping_add` / `wrapping_sub` ).  Fallible
Rust functions (returning `anyhow::Result`) are modelled with `Except`.
External collaborators (the chain adapter, `serde_json`, the rocksdb
store, the compilers behind the loader) are modelled as oracle fields of
an environment record: the claims under study quantify over their
outcomes and never depend on their internals.
-/

/-- `VmError` from `crates/vm-runtime/src/error.rs`; the `External` case
stands for errors of foreign libraries (`bincode`, …) that the Rust code
transports through `anyhow`. -/
inductive VmErr where
  | ExecutionFailed (msg : String)
  | CodeLoadingFailed (msg : String)
  | InitializationFailed (msg : String)
  | SnapshotFailed (msg : String)
  | ResourceLimitExceeded (msg : String)
  | External (msg : String)
deriving DecidableEq, Repr

/-- `ExecutionLimits` from `crates/vm-runtime/src/types.rs`. -/
structure ExecutionLimits where
  max_memory : Nat
  max_cycles : Nat
  max_stack : Nat
  timeout_ms : Nat
deriving DecidableEq, Repr

/-- `ExecutionLimits::default()`: 64 MiB, 1M cycles, 1 MiB, 30 s. -/
def ExecutionLimits.default : ExecutionLimits :=
  { max_memory := 64 * 1024 * 1024
    max_cycles := 1000000
    max_stack := 1 * 1024 * 1024
    timeout_ms := 30000 }

/-- `ExecutionResult` from `crates/vm-runtime/src/types.rs`.
`output` is the byte vector, each entry < 256. -/
structure VmExecutionResult where
  success : Bool
  output : List Nat
  gas_used : Nat
  cycles_used : Nat
  error : Option String
deriving DecidableEq, Repr

/-- `VmType` from `crates/vm-runtime/src/types.rs`. -/
inductive VmType where
  | PolkaVM
  | CkbVM
  | Cartesi
deriving DecidableEq, Repr

/-- `VmSnapshot` from `crates/vm-runtime/src/types.rs`. -/
structure VmSnapshot where
  data : List Nat
  vm_type : VmType
deriving DecidableEq, Repr

/-- `CompleteCkbVmInstance` (ckb_complete.rs): 32 general registers
(64-bit, kept as a 32-element list of `Nat < 2^64`), a code cache of
bytes, memory size, cycle counter and the limits. -/
structure CompleteCkbVmInstance where
  limits : ExecutionLimits
  code_loaded : Bool
  code_cache : List Nat
  memory_size : Nat
  cycle_count : Nat
  registers : List Nat
deriving DecidableEq, Repr

/-- `CompleteCkbVmInstance::new()`. -/
def CompleteCkbVmInstance.new : CompleteCkbVmInstance :=
  { limits := ExecutionLimits.default
    code_loaded := false
    code_cache := []
    memory_size := 0
    cycle_count := 0
    registers := List.replicate 32 0 }

/-- `init_registers`: reset all registers, then sp (x2) := 0x7FFF_FFF0 and
gp (x3) := 0x1000_0000. -/
def initRegisters : List Nat :=
  ((List.replicate 32 0).set 2 0x7FFFFFF0).set 3 0x10000000

/-- Decoded RISC-V instruction (enum `RiscVInstruction` in ckb_complete.rs).
The I-type immediate is the value of `(instruction as i32) >> 20`, i.e. the
sign-extended top 12 bits. -/
inductive RiscVInstruction where
  | IType (opcode : Nat) (rd : Nat) (funct3 : Nat) (rs1 : Nat) (imm : Int)
  | RType (opcode : Nat) (rd : Nat) (funct3 : Nat) (rs1 : Nat) (rs2 : Nat) (funct7 : Nat)
  | System (opcode : Nat) (funct3 : Nat)
deriving DecidableEq, Repr

/-- The I-type immediate `(instruction as i32) >> 20`: the top 12 bits of
the 32-bit word, interpreted as a signed 12-bit value. -/
def itypeImm (w : Nat) : Int :=
  let field : Nat := w / 2 ^ 20
  if field < 2 ^ 11 then (field : Int) else (field : Int) - 2 ^ 12

/-- `decode_instruction` (ckb_complete.rs lines 52-91): extract the fields
and dispatch on the opcode; any opcode other than 0x13 / 0x33 / 0x73 is an
`ExecutionFailed "Unsupported opcode"` error (the Rust message carries the
hex opcode; the exact text is never inspected by the program). -/
def CompleteCkbVmInstance.decode_instruction (_vm : CompleteCkbVmInstance)
    (w : Nat) : Except VmErr RiscVInstruction :=
  let opcode := w % 2 ^ 7
  let rd := w / 2 ^ 7 % 2 ^ 5
  let funct3 := w / 2 ^ 12 % 2 ^ 3
  let rs1 := w / 2 ^ 15 % 2 ^ 5
  let rs2 := w / 2 ^ 20 % 2 ^ 5
  let funct7 := w / 2 ^ 25
  if opcode = 0x13 then
    .ok (.IType opcode rd funct3 rs1 (itypeImm w))
  else if opcode = 0x33 then
    .ok (.RType opcode rd funct3 rs1 rs2 funct7)
  else if opcode = 0x73 then
    .ok (.System opcode funct3)
  else
    .error (.ExecutionFailed ("Unsupported opcode: " ++ toString opcode))

/-- An `i32` immediate cast to `u64` (`imm as u64` in Rust): sign-extension
followed by reduction mod 2^64. -/
def immAsU64 (imm : Int) : Nat := (Int.emod imm (2 ^ 64)).toNat

/-- `execute_instruction` (ckb_complete.rs lines 94-161): bump the cycle
counter, check the cycle limit, then interpret ADDI / ADD / SUB / EBREAK;
any other decoded instruction is a no-op that continues execution.
Returns `(should_stop, vm')`. -/
def CompleteCkbVmInstance.execute_instruction (vm : CompleteCkbVmInstance)
    (inst : RiscVInstruction) : Except VmErr (Bool × CompleteCkbVmInstance) :=
  let vm := { vm with cycle_count := vm.cycle_count + 1 }
  if vm.cycle_count > vm.limits.max_cycles then
    .error (.ResourceLimitExceeded "Max cycles exceeded")
  else
    match inst with
    | .IType 0x13 rd 0x0 rs1 imm =>
        let regs := vm.registers.set rd ((vm.registers.getD rs1 0 + immAsU64 imm) % 2 ^ 64)
        let vm := if rd ≠ 0 then { vm with registers := regs } else vm
        .ok (false, vm)
    | .RType 0x33 rd 0x0 rs1 rs2 0x00 =>
        let regs :=
          vm.registers.set rd ((vm.registers.getD rs1 0 + vm.registers.getD rs2 0) % 2 ^ 64)
        let vm := if rd ≠ 0 then { vm with registers := regs } else vm
        .ok (false, vm)
    | .RType 0x33 rd 0x0 rs1 rs2 0x20 =>
        let regs :=
          vm.registers.set rd
            ((vm.registers.getD rs1 0 + 2 ^ 64 - vm.registers.getD rs2 0) % 2 ^ 64)
        let vm := if rd ≠ 0 then { vm with registers := regs } else vm
        .ok (false, vm)
    | .System 0x73 0x0 =>
        .ok (true, vm)
    | _ =>
        .ok (false, vm)

/-- `fetch_instruction` (ckb_complete.rs lines 164-172): read the 32-bit
little-endian word at `pc` from the code cache; out of bounds is an
`ExecutionFailed "PC out of bounds"` error. -/
def CompleteCkbVmInstance.fetch_instruction (vm : CompleteCkbVmInstance)
    (pc : Nat) : Except VmErr Nat :=
  if pc + 4 > vm.code_cache.length then
    .error (.ExecutionFailed "PC out of bounds")
  else
    .ok (vm.code_cache.getD pc 0
      + vm.code_cache.getD (pc + 1) 0 * 2 ^ 8
      + vm.code_cache.getD (pc + 2) 0 * 2 ^ 16
      + vm.code_cache.getD (pc + 3) 0 * 2 ^ 24)

/-- `setup_memory` (ckb_complete.rs lines 175-188): a0 := input length,
a1 := 0x2000_0000, memory_size := input length + 4096, checked against the
memory limit. -/
def CompleteCkbVmInstance.setup_memory (vm : CompleteCkbVmInstance)
    (input : List Nat) : Except VmErr CompleteCkbVmInstance :=
  let vm := { vm with
    registers := (vm.registers.set 10 (input.length % 2 ^ 64)).set 11 0x20000000
    memory_size := input.length + 4096 }
  if vm.memory_size > vm.limits.max_memory then
    .error (.ResourceLimitExceeded "Memory limit exceeded")
  else
    .ok vm

/-- Little-endian byte encoding of `n` on `k` bytes (`u64::to_le_bytes`
for `k = 8`). -/
def encodeLE : Nat → Nat → List Nat
  | 0, _ => []
  | k + 1, n => n % 256 :: encodeLE k (n / 256)

/-- `extract_result` (ckb_complete.rs lines 191-214): the return value is
a0 (register 10); success iff it is zero; on success the output is its
little-endian bytes, otherwise empty; gas = cycles. -/
def CompleteCkbVmInstance.extract_result (vm : CompleteCkbVmInstance) :
    VmExecutionResult :=
  let return_value := vm.registers.getD 10 0
  let success := return_value = 0
  { success := success
    output := if success then encodeLE 8 return_value else []
    gas_used := vm.cycle_count
    cycles_used := vm.cycle_count
    error := if success then none
             else some ("Non-zero exit code: " ++ toString return_value) }

/-- `load_code` (ckb_complete.rs lines 219-243).  The pair returned is
(the VM state after the call, the call's outcome): on the two error paths
the Rust code returns before touching `self`, so the state component is
the input state unchanged. -/
def CompleteCkbVmInstance.load_code (vm : CompleteCkbVmInstance)
    (code : List Nat) : CompleteCkbVmInstance × Except VmErr Unit :=
  if code = [] then
    (vm, .error (.CodeLoadingFailed "Empty code"))
  else if code.length % 4 ≠ 0 then
    (vm, .error (.CodeLoadingFailed "Code must be 4-byte aligned"))
  else
    ({ vm with
        code_cache := code
        code_loaded := true
        registers := initRegisters
        cycle_count := 0 },
     .ok ())

/-- The body of the `loop` in `execute` (ckb_complete.rs lines 258-285):
fetch, decode, execute one instruction; stop normally on EBREAK; after
`pc += 4`, break normally when pc reaches the end of the code, and abort
with `ResourceLimitExceeded "Execution timeout"` when over the cycle
budget.  `fuel` only bounds the recursion: each iteration increments
`cycle_count` and errors once it exceeds `max_cycles`, so the loop runs at
most `max_cycles + 1` iterations and the fuel-exhaustion branch is
unreachable for the fuel `execute` supplies. -/
def execLoop (vm : CompleteCkbVmInstance) (pc : Nat) :
    Nat → Except VmErr CompleteCkbVmInstance
  | 0 => .error (.ExecutionFailed "loop fuel exhausted")
  | fuel + 1 =>
    match vm.fetch_instruction pc with
    | .error e => .error e
    | .ok w =>
      match vm.decode_instruction w with
      | .error e => .error e
      | .ok inst =>
        match vm.execute_instruction inst with
        | .error e => .error e
        | .ok (should_stop, vm1) =>
          if should_stop then .ok vm1
          else if pc + 4 ≥ vm1.code_cache.length then .ok vm1
          else if vm1.cycle_count > vm1.limits.max_cycles then
            .error (.ResourceLimitExceeded "Execution timeout")
          else execLoop vm1 (pc + 4) fuel

/-- `execute` (ckb_complete.rs lines 245-294): require loaded code, set up
memory, run the fetch/decode/execute loop from pc = 0, extract the result.
Returns the result together with the final VM state. -/
def CompleteCkbVmInstance.execute (vm : CompleteCkbVmInstance)
    (input : List Nat) : Except VmErr (VmExecutionResult × CompleteCkbVmInstance) :=
  if ¬ vm.code_loaded then
    .error (.ExecutionFailed "No code loaded")
  else
    match vm.setup_memory input with
    | .error e => .error e
    | .ok vm1 =>
      match execLoop vm1 0 (vm1.limits.max_cycles + 2) with
      | .error e => .error e
      | .ok vm2 => .ok (vm2.extract_result, vm2)

/-- Loading a single well-aligned EBREAK word succeeds (sanity check of
the `load_code` embedding against the repository's snapshot test). -/
theorem load_code_ebreak_ok :
    (CompleteCkbVmInstance.new.load_code [0x73, 0x00, 0x10, 0x00]).2 = .ok () := rfl

/-! ## Snapshot / restore (ckb_complete.rs lines 296-328)

`snapshot` serializes a `VmState { registers, cycle_count, memory_size,
code_loaded }` with `bincode` (default options: fixed-width little-endian
integers, `usize` as `u64`, `bool` as one byte 0/1, fixed-size arrays
with no length prefix); `restore` rejects snapshots of other VM kinds and
deserializes the four fields back. -/

/-- Little-endian decoding of `k` bytes from the front of a list
(the shape `bincode` reads a fixed-width integer). -/
def decodeLE : Nat → List Nat → Option (Nat × List Nat)
  | 0, bs => some (0, bs)
  | _ + 1, [] => none
  | k + 1, b :: bs =>
    match decodeLE k bs with
    | none => none
    | some (v, rest) => some (b + 256 * v, rest)

/-- Decoding of a fixed-size array of `k` 64-bit words. -/
def decodeWords : Nat → List Nat → Option (List Nat × List Nat)
  | 0, bs => some ([], bs)
  | k + 1, bs =>
    match decodeLE 8 bs with
    | none => none
    | some (v, rest) =>
      match decodeWords k rest with
      | none => none
      | some (vs, r) => some (v :: vs, r)

/-- The `VmState` struct serialized into snapshots (ckb_complete.rs lines
365-371). -/
structure VmState where
  registers : List Nat
  cycle_count : Nat
  memory_size : Nat
  code_loaded : Bool
deriving DecidableEq, Repr

/-- `bincode::serialize` of a `VmState` under bincode's default options:
the 32 registers as consecutive `u64` little-endian words, then
`cycle_count` (`u64`), `memory_size` (`usize`, encoded as `u64`) and
`code_loaded` (one byte). -/
def serializeVmState (s : VmState) : List Nat :=
  (s.registers.map (encodeLE 8)).flatten
    ++ encodeLE 8 s.cycle_count
    ++ encodeLE 8 s.memory_size
    ++ [if s.code_loaded then 1 else 0]

/-- `bincode::deserialize` of a `VmState`: reads the fields in declaration
order; a boolean byte other than 0/1 is an error. -/
def deserializeVmState (bs : List Nat) : Option VmState :=
  match decodeWords 32 bs with
  | none => none
  | some (regs, r1) =>
    match decodeLE 8 r1 with
    | none => none
    | some (cyc, r2) =>
      match decodeLE 8 r2 with
      | none => none
      | some (mem, r3) =>
        match r3 with
        | [] => none
        | b :: _ =>
          if b = 0 then some ⟨regs, cyc, mem, false⟩
          else if b = 1 then some ⟨regs, cyc, mem, true⟩
          else none

/-- `snapshot` (ckb_complete.rs lines 296-310). -/
def CompleteCkbVmInstance.snapshot (vm : CompleteCkbVmInstance) : VmSnapshot :=
  { data := serializeVmState
      ⟨vm.registers, vm.cycle_count, vm.memory_size, vm.code_loaded⟩
    vm_type := VmType.CkbVM }

/-- `restore` (ckb_complete.rs lines 312-328): reject a snapshot of a
different VM kind, then deserialize and overwrite the four state fields. -/
def CompleteCkbVmInstance.restore (vm : CompleteCkbVmInstance)
    (snap : VmSnapshot) : Except VmErr CompleteCkbVmInstance :=
  if snap.vm_type ≠ VmType.CkbVM then
    .error (.SnapshotFailed "VM type mismatch")
  else
    match deserializeVmState snap.data with
    | none => .error (.External "bincode: deserialize failed")
    | some s =>
      .ok { vm with
              registers := s.registers
              cycle_count := s.cycle_count
              memory_size := s.memory_size
              code_loaded := s.code_loaded }

/-- Bounds under which a VM state is representable: 32 registers, every
64-bit field below `2 ^ 64`.  `load_code`, `setup_memory` and the
instruction semantics all preserve these bounds (writes are reduced mod
`2 ^ 64`). -/
def WellFormedVm (vm : CompleteCkbVmInstance) : Prop :=
  vm.registers.length = 32 ∧ (∀ r ∈ vm.registers, r < 2 ^ 64) ∧
    vm.cycle_count < 2 ^ 64 ∧ vm.memory_size < 2 ^ 64

instance : DecidablePred WellFormedVm := fun vm => by
  unfold WellFormedVm; infer_instance

theorem decodeLE_encodeLE (k : Nat) :
    ∀ (n : Nat) (rest : List Nat), n < 256 ^ k →
      decodeLE k (encodeLE k n ++ rest) = some (n, rest) := by
  induction k with
  | zero =>
    intro n rest h
    interval_cases n
    simp [encodeLE, decodeLE]
  | succ k ih =>
    intro n rest h
    have hdiv : n / 256 < 256 ^ k := by
      apply Nat.div_lt_of_lt_mul
      calc n < 256 ^ (k + 1) := h
        _ = 256 * 256 ^ k := by ring
    simp only [encodeLE, List.cons_append, decodeLE, List.append_eq]
    rw [ih (n / 256) rest hdiv]
    simp [Nat.mod_add_div]

theorem decodeWords_flatten (l : List Nat) :
    ∀ (rest : List Nat), (∀ x ∈ l, x < 256 ^ 8) →
      decodeWords l.length ((l.map (encodeLE 8)).flatten ++ rest) = some (l, rest) := by
  induction l with
  | nil => intro rest _; simp [decodeWords]
  | cons x xs ih =>
    intro rest h
    have hx : x < 256 ^ 8 := h x (by simp)
    simp only [List.length_cons, List.map_cons, List.flatten_cons, List.append_assoc,
      decodeWords, decodeLE_encodeLE 8 x _ hx]
    rw [ih _ (fun y hy => h y (by simp [hy]))]

theorem deserialize_serializeVmState (s : VmState)
    (hlen : s.registers.length = 32) (hreg : ∀ r ∈ s.registers, r < 2 ^ 64)
    (hcyc : s.cycle_count < 2 ^ 64) (hmem : s.memory_size < 2 ^ 64) :
    deserializeVmState (serializeVmState s) = some s := by
  have h8 : (256 : Nat) ^ 8 = 2 ^ 64 := by norm_num
  obtain ⟨regs, cyc, mem, cl⟩ := s
  simp only at hlen hreg hcyc hmem
  have hwords :
      decodeWords 32 ((regs.map (encodeLE 8)).flatten ++
        (encodeLE 8 cyc ++ (encodeLE 8 mem ++ [if cl then 1 else 0]))) =
      some (regs, encodeLE 8 cyc ++ (encodeLE 8 mem ++ [if cl then 1 else 0])) := by
    rw [← hlen]
    exact decodeWords_flatten regs _ (fun x hx => h8 ▸ hreg x hx)
  have hcd : decodeLE 8 (encodeLE 8 cyc ++ (encodeLE 8 mem ++ [if cl then 1 else 0])) =
      some (cyc, encodeLE 8 mem ++ [if cl then 1 else 0]) :=
    decodeLE_encodeLE 8 cyc _ (h8 ▸ hcyc)
  have hmd : decodeLE 8 (encodeLE 8 mem ++ [if cl then 1 else 0]) =
      some (mem, [if cl then 1 else 0]) :=
    decodeLE_encodeLE 8 mem _ (h8 ▸ hmem)
  unfold serializeVmState deserializeVmState
  simp only [List.append_assoc]
  rw [hwords]
  simp only [hcd, hmd]
  cases cl <;> simp

/-- C9 (confirmed): restoring a snapshot taken from the same VM instance
restores the VM exactly (in particular the 32 registers, the cycle count,
the memory size and the code-loaded flag are identical to their values at
snapshot time), and restoring a snapshot whose VM kind is not `CkbVM` is
rejected with a `SnapshotFailed "VM type mismatch"` error. -/
theorem C9_snapshot_restore_roundtrip (vm : CompleteCkbVmInstance)
    (h : WellFormedVm vm) :
    vm.restore vm.snapshot = .ok vm ∧
    (∀ snap : VmSnapshot, snap.vm_type ≠ VmType.CkbVM →
      vm.restore snap = .error (.SnapshotFailed "VM type mismatch")) := by
  obtain ⟨hlen, hreg, hcyc, hmem⟩ := h
  constructor
  · unfold CompleteCkbVmInstance.restore CompleteCkbVmInstance.snapshot
    rw [deserialize_serializeVmState ⟨vm.registers, vm.cycle_count, vm.memory_size,
      vm.code_loaded⟩ hlen hreg hcyc hmem]
    simp
  · intro snap hsnap
    unfold CompleteCkbVmInstance.restore
    simp [hsnap]

/-- Witness for C9 at the freshly created VM (`CompleteCkbVmInstance::new`)
and a PolkaVM-tagged snapshot. -/
theorem C9_snapshot_restore_roundtrip_witness :
    CompleteCkbVmInstance.new.restore CompleteCkbVmInstance.new.snapshot =
      .ok CompleteCkbVmInstance.new ∧
    CompleteCkbVmInstance.new.restore ⟨[], VmType.PolkaVM⟩ =
      .error (.SnapshotFailed "VM type mismatch") := by
  have h := C9_snapshot_restore_roundtrip CompleteCkbVmInstance.new (by decide)
  exact ⟨h.1, h.2 ⟨[], VmType.PolkaVM⟩ (by decide)⟩

/-- C10 (confirmed): `load_code` on the empty byte slice fails with
`CodeLoadingFailed "Empty code"` and leaves the entire VM state (code
cache, code-loaded flag, registers, cycle count, …) unchanged, although
the empty length trivially satisfies the multiple-of-4 requirement. -/
theorem C10_load_code_empty (vm : CompleteCkbVmInstance) :
    vm.load_code [] = (vm, .error (.CodeLoadingFailed "Empty code")) ∧
    (List.length ([] : List Nat)) % 4 = 0 := by
  exact ⟨rfl, rfl⟩

/-! ## The four-instruction add program (spec §8 scenario 6 / the
`test_complete_ckb_vm` test of ckb_complete.rs) -/

/-- The VM after loading the standard RISC-V encoding of
`addi a0, zero, 5; addi a1, zero, 3; add a0, a0, a1; ebreak`
(words 0x00500513, 0x00300593, 0x00B50533, 0x00100073). -/
def vmAddProgram : CompleteCkbVmInstance :=
  (CompleteCkbVmInstance.new.load_code
    [0x13, 0x05, 0x50, 0x00,
     0x93, 0x05, 0x30, 0x00,
     0x33, 0x05, 0xB5, 0x00,
     0x73, 0x00, 0x10, 0x00]).1

/-- The VM after loading the literal byte sequence of the repository's
`test_complete_ckb_vm` test (ckb_complete.rs lines 382-387).  Its second
word is 0x00300613 = `addi a2, zero, 3` (rd = x12), although the test's
comment says `addi a1, zero, 3`. -/
def vmAddTestBytes : CompleteCkbVmInstance :=
  (CompleteCkbVmInstance.new.load_code
    [0x13, 0x05, 0x50, 0x00,
     0x13, 0x06, 0x30, 0x00,
     0x33, 0x05, 0xB5, 0x00,
     0x73, 0x00, 0x10, 0x00]).1

/-- C4 (code_bug): executing the claim's four-instruction program with
empty input ends with registers[10] = 8 and cycles-used = 4, but
`success = false`, because `extract_result` defines success as
`a0 == 0` — so the repository's own test assertion
`assert!(result.success)` fails.  With the test's literal bytes the
mis-encoded second instruction writes a2, so a0 ends as
5 + 0x2000_0000 = 0x2000_0005 (setup_memory preloads a1 with the virtual
input base address) and success is again false. -/
theorem C4_add_program_run :
    ((vmAddProgram.execute []).toOption.map
      (fun p => (p.2.registers.getD 10 0, p.1.cycles_used, p.1.success))
        = some (8, 4, false)) ∧
    ((vmAddTestBytes.execute []).toOption.map
      (fun p => (p.2.registers.getD 10 0, p.1.cycles_used, p.1.success))
        = some (0x20000005, 4, false)) := by
  exact ⟨rfl, rfl⟩

/-! ## Running off the end of the code region (C5) -/

/-- A loaded program with no EBREAK: the single instruction
`addi a0, zero, 5`. -/
def vmNoEbreak : CompleteCkbVmInstance :=
  (CompleteCkbVmInstance.new.load_code [0x13, 0x05, 0x50, 0x00]).1

/-- C5 counterexample: on the one-instruction program with no EBREAK the
loop advances pc past the end of the code region, yet `execute` returns a
normal `ExecutionResult` (an `.ok` value), not an `ExecutionError`: the
Rust loop just logs "Reached end of code without EBREAK" and breaks. -/
theorem C5_counterexample_run_off_end_is_ok :
    (vmNoEbreak.execute []).isOk = true ∧
    (vmNoEbreak.execute []).toOption.map (fun p => (p.1.success, p.1.cycles_used))
      = some (false, 1) := by
  exact ⟨rfl, rfl⟩

/-- C5 (corrected): whenever the execution loop executes an instruction
normally (no error, no EBREAK stop request) and the advanced pc leaves
the code region, the loop returns the VM state normally (`.ok`); leaving
the code region without EBREAK is not an error abort. -/
theorem C5_run_off_end_returns_normally (vm vm1 : CompleteCkbVmInstance)
    (pc fuel w : Nat) (inst : RiscVInstruction)
    (hf : vm.fetch_instruction pc = .ok w)
    (hd : vm.decode_instruction w = .ok inst)
    (he : vm.execute_instruction inst = .ok (false, vm1))
    (hend : pc + 4 ≥ vm1.code_cache.length) :
    execLoop vm pc (fuel + 1) = .ok vm1 := by
  simp only [execLoop, hf, hd, he]
  simp [hend]

/-- The state of `vmNoEbreak` after `setup_memory []` inside `execute`. -/
def vmNoEbreakSetup : CompleteCkbVmInstance :=
  { vmNoEbreak with
      registers := (vmNoEbreak.registers.set 10 0).set 11 0x20000000
      memory_size := 4096 }

/-- The state after additionally executing the single ADDI instruction. -/
def vmNoEbreakFinal : CompleteCkbVmInstance :=
  { vmNoEbreakSetup with
      cycle_count := 1
      registers := vmNoEbreakSetup.registers.set 10 5 }

/-- Witness for C5 at the loaded one-instruction program. -/
theorem C5_run_off_end_returns_normally_witness :
    execLoop vmNoEbreakSetup 0 1 = .ok vmNoEbreakFinal :=
  C5_run_off_end_returns_normally vmNoEbreakSetup vmNoEbreakFinal 0 0 0x00500513
    (.IType 0x13 10 0 0 5) rfl rfl rfl (by decide)

/-! ## Parallel scheduler: conflict analysis (conflict.rs) and the Solana
strategy (solana_strategy.rs)

`ConflictAnalyzer::analyze` first builds, for every state address, the
list of transaction indices reading it (`read_conflicts`) and writing it
(`write_conflicts`), each index pushed once per occurrence of the address
in the transaction's declared set, in ascending index order.  It then
emits write/write edges between every two positions of a writer list and
write/read edges between every writer and every distinct reader.  The
Rust `HashMap` iterates its keys in an unspecified order; the embedding
fixes a concrete key order (first-occurrence order after `dedup`), and
all properties proved below are order-independent (edge membership). -/

/-- `Transaction` from `crates/scheduler/src/types.rs`; the Rust fields
`from` and `to` are called `from_addr` / `to_addr` here (both are
reserved words in this Lean environment). -/
structure SchedTransaction where
  hash : String
  from_addr : String
  to_addr : Option String
  data : List Nat
  gas_limit : Nat
  gas_price : Nat
  nonce : Nat
  read_set : List String
  write_set : List String
deriving DecidableEq, Repr, Inhabited

/-- `ConflictGraph` from conflict.rs. -/
structure ConflictGraph where
  nodes : Nat
  edges : List (Nat × Nat)
  read_conflicts : List (String × List Nat)
  write_conflicts : List (String × List Nat)
deriving DecidableEq, Repr

/-- `ExecutionPlan` from `crates/scheduler/src/types.rs`. -/
structure ExecutionPlan where
  parallel_groups : List (List Nat)
  dependency_order : List Nat
deriving DecidableEq, Repr

/-- The entry `write_conflicts[addr]` built by the first loop of
`analyze`: index `i` is pushed once per occurrence of `addr` in
`transactions[i].write_set`, for `i` ascending. -/
def writersOf (txs : List SchedTransaction) (addr : String) : List Nat :=
  (List.range txs.length).flatMap (fun i =>
    (txs.getD i default).write_set.filterMap
      (fun a => if a = addr then some i else none))

/-- The entry `read_conflicts[addr]`, built the same way from the
declared read sets. -/
def readersOf (txs : List SchedTransaction) (addr : String) : List Nat :=
  (List.range txs.length).flatMap (fun i =>
    (txs.getD i default).read_set.filterMap
      (fun a => if a = addr then some i else none))

/-- The key set of `write_conflicts` (each written address once). -/
def writeKeys (txs : List SchedTransaction) : List String :=
  ((txs.map (fun tx => tx.write_set)).flatten).dedup

/-- The key set of `read_conflicts` (each read address once). -/
def readKeys (txs : List SchedTransaction) : List String :=
  ((txs.map (fun tx => tx.read_set)).flatten).dedup

/-- The double loop `for i in 0..len, for j in i+1..len, push (l[i], l[j])`
of the write/write conflict detection. -/
def pairsOf : List Nat → List (Nat × Nat)
  | [] => []
  | x :: xs => xs.map (fun y => (x, y)) ++ pairsOf xs

/-- The edge list produced by `analyze` (conflict.rs lines 44-62): for
every written address, all position pairs of its writer list, then one
edge per (writer, reader) pair with `writer != reader`. -/
def conflictEdges (txs : List SchedTransaction) : List (Nat × Nat) :=
  (writeKeys txs).flatMap (fun addr =>
    pairsOf (writersOf txs addr) ++
    (writersOf txs addr).flatMap (fun writer =>
      (readersOf txs addr).filterMap (fun reader =>
        if writer ≠ reader then some (writer, reader) else none)))

/-- `ConflictAnalyzer::analyze` (conflict.rs lines 28-70).  The function
is async and infallible (`Ok(...)` on every path); the embedding returns
the graph directly. -/
def ConflictAnalyzer.analyze (txs : List SchedTransaction) : ConflictGraph :=
  { nodes := txs.length
    edges := conflictEdges txs
    read_conflicts := (readKeys txs).map (fun a => (a, readersOf txs a))
    write_conflicts := (writeKeys txs).map (fun a => (a, writersOf txs a)) }

/-- `SolanaStrategy::plan_execution` (solana_strategy.rs lines 21-34): a
stub that ignores the conflict graph and puts every transaction index
into one single parallel group (`// TODO` in the source). -/
def SolanaStrategy.plan_execution (transactions : List SchedTransaction)
    (_conflict_graph : ConflictGraph) : ExecutionPlan :=
  { parallel_groups := [List.range transactions.length]
    dependency_order := List.range transactions.length }

theorem mem_writersOf {txs : List SchedTransaction} {addr : String} {i : Nat} :
    i ∈ writersOf txs addr ↔
      i < txs.length ∧ addr ∈ (txs.getD i default).write_set := by
  constructor
  · intro h
    simp only [writersOf, List.mem_flatMap, List.mem_range, List.mem_filterMap] at h
    obtain ⟨j, hj, a, ha, hif⟩ := h
    by_cases hcase : a = addr
    · rw [if_pos hcase] at hif
      obtain rfl : j = i := Option.some.inj hif
      exact ⟨hj, hcase ▸ ha⟩
    · rw [if_neg hcase] at hif
      exact absurd hif (by simp)
  · rintro ⟨hi, ha⟩
    simp only [writersOf, List.mem_flatMap, List.mem_range, List.mem_filterMap]
    exact ⟨i, hi, addr, ha, by simp⟩

theorem mem_readersOf {txs : List SchedTransaction} {addr : String} {i : Nat} :
    i ∈ readersOf txs addr ↔
      i < txs.length ∧ addr ∈ (txs.getD i default).read_set := by
  constructor
  · intro h
    simp only [readersOf, List.mem_flatMap, List.mem_range, List.mem_filterMap] at h
    obtain ⟨j, hj, a, ha, hif⟩ := h
    by_cases hcase : a = addr
    · rw [if_pos hcase] at hif
      obtain rfl : j = i := Option.some.inj hif
      exact ⟨hj, hcase ▸ ha⟩
    · rw [if_neg hcase] at hif
      exact absurd hif (by simp)
  · rintro ⟨hi, ha⟩
    simp only [readersOf, List.mem_flatMap, List.mem_range, List.mem_filterMap]
    exact ⟨i, hi, addr, ha, by simp⟩

theorem mem_writeKeys {txs : List SchedTransaction} {addr : String} :
    addr ∈ writeKeys txs ↔ ∃ tx ∈ txs, addr ∈ tx.write_set := by
  simp only [writeKeys, List.mem_dedup, List.mem_flatten, List.mem_map]
  constructor
  · rintro ⟨l, ⟨tx, htx, rfl⟩, ha⟩
    exact ⟨tx, htx, ha⟩
  · rintro ⟨tx, htx, ha⟩
    exact ⟨tx.write_set, ⟨tx, htx, rfl⟩, ha⟩

/-- A duplicate-free list whose elements are all equal has at most one
element. -/
theorem length_le_one_of_nodup_const {l : List String} {addr : String}
    (hall : ∀ x ∈ l, x = addr) (hnd : l.Nodup) : l.length ≤ 1 := by
  match l with
  | [] => simp
  | [_] => simp
  | x :: y :: rest =>
    exfalso
    have hx : x = addr := hall x (by simp)
    have hy : y = addr := hall y (by simp)
    have hxy : x ∉ y :: rest := (List.nodup_cons.mp hnd).1
    exact hxy (by simp [hx, hy])

/-- `filterMap (fun a => if a = addr then some j else none)` over a
duplicate-free list keeps at most one element. -/
theorem filterMap_if_short {l : List String} {addr : String} {j : Nat}
    (hnd : l.Nodup) :
    (l.filterMap (fun a => if a = addr then some j else none)).length ≤ 1 := by
  have hfil : l.filterMap (fun a => if a = addr then some j else none) =
      (l.filter (fun a => a = addr)).map (fun _ => j) := by
    induction l with
    | nil => simp
    | cons x xs ih =>
      have ihx := ih (List.nodup_cons.mp hnd).2
      by_cases hx : x = addr
      · simp [List.filterMap_cons, List.filter_cons, hx, ihx]
      · simp [List.filterMap_cons, List.filter_cons, hx, ihx]
  rw [hfil, List.length_map]
  exact @length_le_one_of_nodup_const _ addr
    (fun x hx => of_decide_eq_true (List.mem_filter.mp hx).2) (hnd.filter _)

/-- Concatenating over `range n` lists `f j` whose elements are all `j`
and which have at most one element each yields a duplicate-free list. -/
theorem nodup_flatMap_singleton {f : Nat → List Nat} :
    ∀ {n : Nat}, (∀ j < n, ∀ x ∈ f j, x = j) → (∀ j < n, (f j).length ≤ 1) →
      ((List.range n).flatMap f).Nodup := by
  intro n
  induction n with
  | zero => intro _ _; simp
  | succ m ih =>
    intro hself hshort
    rw [List.range_succ, List.flatMap_append, List.nodup_append]
    refine ⟨ih (fun j hj => hself j (by omega)) (fun j hj => hshort j (by omega)), ?_, ?_⟩
    · simp only [List.flatMap_cons, List.flatMap_nil, List.append_nil]
      have hlen := hshort m (by omega)
      rcases hfm : f m with - | ⟨x, - | ⟨y, rest⟩⟩
      · simp
      · simp
      · rw [hfm] at hlen
        simp at hlen
    · intro x hx1 hx2
      simp only [List.flatMap_cons, List.flatMap_nil, List.append_nil] at hx2
      have hxm : x = m := hself m (by omega) x hx2
      simp only [List.mem_flatMap, List.mem_range] at hx1
      obtain ⟨j, hj, hxe⟩ := hx1
      have hxj : x = j := hself j (by omega) x hxe
      omega

/-- Under duplicate-free declared write sets, a writer list has no
duplicate indices. -/
theorem writersOf_nodup {txs : List SchedTransaction} {addr : String}
    (h : ∀ tx ∈ txs, tx.write_set.Nodup) : (writersOf txs addr).Nodup := by
  unfold writersOf
  apply nodup_flatMap_singleton
  · intro j _ x hx
    simp only [List.mem_filterMap] at hx
    obtain ⟨a, _, hif⟩ := hx
    by_cases hc : a = addr
    · rw [if_pos hc] at hif
      exact (Option.some.inj hif).symm
    · rw [if_neg hc] at hif
      exact absurd hif (by simp)
  · intro j hj
    apply filterMap_if_short
    apply h
    rw [List.getD_eq_getElem txs default hj]
    exact List.getElem_mem hj

theorem pairsOf_iff_sublist {x y : Nat} :
    ∀ {l : List Nat}, (x, y) ∈ pairsOf l ↔ List.Sublist [x, y] l := by
  intro l
  induction l with
  | nil =>
    simp only [pairsOf, List.not_mem_nil, false_iff]
    intro h
    exact absurd (h.subset (by simp : x ∈ [x, y])) (List.not_mem_nil x)
  | cons z zs ih =>
    simp only [pairsOf, List.mem_append, List.mem_map, ih]
    constructor
    · rintro (⟨y1, hy1, heq⟩ | hsub)
      · have h1 : z = x := congrArg Prod.fst heq
        have h2 : y1 = y := congrArg Prod.snd heq
        subst h1
        subst h2
        exact List.Sublist.cons₂ z (List.singleton_sublist.mpr hy1)
      · exact List.Sublist.cons z hsub
    · intro hsub
      cases hsub with
      | cons _ h => exact Or.inr h
      | cons₂ _ h => exact Or.inl ⟨y, List.singleton_sublist.mp h, rfl⟩

theorem sublist_pair_of_mem {x y : Nat} :
    ∀ {l : List Nat}, x ∈ l → y ∈ l → x ≠ y →
      List.Sublist [x, y] l ∨ List.Sublist [y, x] l := by
  intro l
  induction l with
  | nil => intro hx; exact absurd hx (List.not_mem_nil x)
  | cons z zs ih =>
    intro hx hy hne
    by_cases hxz : x = z
    · subst hxz
      have hy2 : y ∈ zs := by
        rcases List.mem_cons.mp hy with h | h
        · exact absurd h.symm hne
        · exact h
      exact Or.inl (List.Sublist.cons₂ x (List.singleton_sublist.mpr hy2))
    · by_cases hyz : y = z
      · subst hyz
        have hx2 : x ∈ zs := by
          rcases List.mem_cons.mp hx with h | h
          · exact absurd h hxz
          · exact h
        exact Or.inr (List.Sublist.cons₂ y (List.singleton_sublist.mpr hx2))
      · have hx2 : x ∈ zs := by
          rcases List.mem_cons.mp hx with h | h
          · exact absurd h hxz
          · exact h
        have hy2 : y ∈ zs := by
          rcases List.mem_cons.mp hy with h | h
          · exact absurd h hyz
          · exact h
        rcases ih hx2 hy2 hne with h | h
        · exact Or.inl (List.Sublist.cons z h)
        · exact Or.inr (List.Sublist.cons z h)

theorem mem_conflictEdges {txs : List SchedTransaction} {u v : Nat} :
    (u, v) ∈ conflictEdges txs ↔
      ∃ addr, addr ∈ writeKeys txs ∧
        ((u, v) ∈ pairsOf (writersOf txs addr) ∨
         (u ∈ writersOf txs addr ∧ v ∈ readersOf txs addr ∧ u ≠ v)) := by
  simp only [conflictEdges, List.mem_flatMap, List.mem_append]
  constructor
  · rintro ⟨addr, haddr, hmem | hmem⟩
    · exact ⟨addr, haddr, Or.inl hmem⟩
    · simp only [List.mem_flatMap, List.mem_filterMap] at hmem
      obtain ⟨w, hw, r, hr, hif⟩ := hmem
      by_cases hne : w ≠ r
      · rw [if_pos hne] at hif
        have h1 : w = u := congrArg Prod.fst (Option.some.inj hif)
        have h2 : r = v := congrArg Prod.snd (Option.some.inj hif)
        subst h1
        subst h2
        exact ⟨addr, haddr, Or.inr ⟨hw, hr, hne⟩⟩
      · rw [if_neg hne] at hif
        exact absurd hif (by simp)
  · rintro ⟨addr, haddr, hmem | ⟨hw, hr, hne⟩⟩
    · exact ⟨addr, haddr, Or.inl hmem⟩
    · refine ⟨addr, haddr, Or.inr ?_⟩
      simp only [List.mem_flatMap, List.mem_filterMap]
      exact ⟨u, hw, v, hr, by rw [if_pos hne]⟩

/-- The spec's overlap relation between two transactions of a batch:
write/write, write/read or read/write intersection of declared sets. -/
def conflictsWith (txs : List SchedTransaction) (i j : Nat) : Prop :=
  (∃ a, a ∈ (txs.getD i default).write_set ∧ a ∈ (txs.getD j default).write_set) ∨
  (∃ a, a ∈ (txs.getD i default).write_set ∧ a ∈ (txs.getD j default).read_set) ∨
  (∃ a, a ∈ (txs.getD i default).read_set ∧ a ∈ (txs.getD j default).write_set)

theorem writeKeys_of_writes {txs : List SchedTransaction} {i : Nat} {a : String}
    (hi : i < txs.length) (ha : a ∈ (txs.getD i default).write_set) :
    a ∈ writeKeys txs := by
  apply mem_writeKeys.mpr
  refine ⟨txs.getD i default, ?_, ha⟩
  rw [List.getD_eq_getElem txs default hi]
  exact List.getElem_mem hi

/-- C7 (corrected, amended with the duplicate-freeness hypothesis):
provided every transaction's declared write set lists each address at
most once, the edge set of `ConflictAnalyzer::analyze` contains an edge
between `i` and `j` (in either orientation) exactly when `i ≠ j`, both
index the batch, and their declared sets overlap as write/write,
write/read or read/write.  In particular there are then no self-edges
and no spurious edges. -/
theorem C7_conflict_edges_exact (txs : List SchedTransaction)
    (hnd : ∀ tx ∈ txs, tx.write_set.Nodup) (i j : Nat) :
    ((i, j) ∈ (ConflictAnalyzer.analyze txs).edges ∨
     (j, i) ∈ (ConflictAnalyzer.analyze txs).edges) ↔
    (i ≠ j ∧ i < txs.length ∧ j < txs.length ∧ conflictsWith txs i j) := by
  have hedges : (ConflictAnalyzer.analyze txs).edges = conflictEdges txs := rfl
  rw [hedges]
  constructor
  · rintro (h | h)
    · obtain ⟨addr, _, hcase⟩ := mem_conflictEdges.mp h
      rcases hcase with hpair | ⟨hw, hr, hne⟩
      · have hsub := pairsOf_iff_sublist.mp hpair
        have hiw : i ∈ writersOf txs addr := hsub.subset (by simp)
        have hjw : j ∈ writersOf txs addr := hsub.subset (by simp)
        have hne : i ≠ j := by
          have hnodup : ([i, j] : List Nat).Nodup :=
            (writersOf_nodup hnd).sublist hsub
          simpa using (List.nodup_cons.mp hnodup).1
        obtain ⟨hi, hai⟩ := mem_writersOf.mp hiw
        obtain ⟨hj, haj⟩ := mem_writersOf.mp hjw
        exact ⟨hne, hi, hj, Or.inl ⟨addr, hai, haj⟩⟩
      · obtain ⟨hi, hai⟩ := mem_writersOf.mp hw
        obtain ⟨hj, haj⟩ := mem_readersOf.mp hr
        exact ⟨hne, hi, hj, Or.inr (Or.inl ⟨addr, hai, haj⟩)⟩
    · obtain ⟨addr, _, hcase⟩ := mem_conflictEdges.mp h
      rcases hcase with hpair | ⟨hw, hr, hne⟩
      · have hsub := pairsOf_iff_sublist.mp hpair
        have hjw : j ∈ writersOf txs addr := hsub.subset (by simp)
        have hiw : i ∈ writersOf txs addr := hsub.subset (by simp)
        have hne : i ≠ j := by
          have hnodup : ([j, i] : List Nat).Nodup :=
            (writersOf_nodup hnd).sublist hsub
          have := (List.nodup_cons.mp hnodup).1
          simp only [List.mem_singleton] at this
          exact fun hij => this (hij ▸ rfl)
        obtain ⟨hi, hai⟩ := mem_writersOf.mp hiw
        obtain ⟨hj, haj⟩ := mem_writersOf.mp hjw
        exact ⟨hne, hi, hj, Or.inl ⟨addr, hai, haj⟩⟩
      · obtain ⟨hj, haj⟩ := mem_writersOf.mp hw
        obtain ⟨hi, hai⟩ := mem_readersOf.mp hr
        exact ⟨fun hij => hne (hij ▸ rfl), hi, hj, Or.inr (Or.inr ⟨addr, hai, haj⟩)⟩
  · rintro ⟨hne, hi, hj, hcf⟩
    rcases hcf with ⟨a, hai, haj⟩ | ⟨a, hai, haj⟩ | ⟨a, hai, haj⟩
    · have hiw : i ∈ writersOf txs a := mem_writersOf.mpr ⟨hi, hai⟩
      have hjw : j ∈ writersOf txs a := mem_writersOf.mpr ⟨hj, haj⟩
      have hkey : a ∈ writeKeys txs := writeKeys_of_writes hi hai
      rcases sublist_pair_of_mem hiw hjw hne with hsub | hsub
      · exact Or.inl (mem_conflictEdges.mpr
          ⟨a, hkey, Or.inl (pairsOf_iff_sublist.mpr hsub)⟩)
      · exact Or.inr (mem_conflictEdges.mpr
          ⟨a, hkey, Or.inl (pairsOf_iff_sublist.mpr hsub)⟩)
    · have hiw : i ∈ writersOf txs a := mem_writersOf.mpr ⟨hi, hai⟩
      have hjr : j ∈ readersOf txs a := mem_readersOf.mpr ⟨hj, haj⟩
      exact Or.inl (mem_conflictEdges.mpr
        ⟨a, writeKeys_of_writes hi hai, Or.inr ⟨hiw, hjr, hne⟩⟩)
    · have hjw : j ∈ writersOf txs a := mem_writersOf.mpr ⟨hj, haj⟩
      have hir : i ∈ readersOf txs a := mem_readersOf.mpr ⟨hi, hai⟩
      exact Or.inr (mem_conflictEdges.mpr
        ⟨a, writeKeys_of_writes hj haj, Or.inr ⟨hjw, hir, fun h => hne h.symm⟩⟩)

/-- Two transactions that both declare a write to address "A" (the batch
used to exhibit the Solana strategy's missing conflict handling). -/
def c3Txs : List SchedTransaction :=
  [{ hash := "0xT1", from_addr := "0xA1", to_addr := none, data := [],
     gas_limit := 21000, gas_price := 1, nonce := 0,
     read_set := [], write_set := ["A"] },
   { hash := "0xT2", from_addr := "0xA2", to_addr := none, data := [],
     gas_limit := 21000, gas_price := 1, nonce := 0,
     read_set := [], write_set := ["A"] }]

/-- C3 (code_bug): for the two-transaction batch in which both
transactions write address "A", `ConflictAnalyzer::analyze` produces the
edge (0, 1), yet `SolanaStrategy::plan_execution` (a `TODO` stub that
ignores its conflict-graph argument) puts both indices into one single
parallel group — violating the claimed invariant that no group contains
two indices joined by a conflict edge. -/
theorem C3_solana_single_group_ignores_conflicts :
    (SolanaStrategy.plan_execution c3Txs (ConflictAnalyzer.analyze c3Txs)).parallel_groups
      = [[0, 1]] ∧
    (0, 1) ∈ (ConflictAnalyzer.analyze c3Txs).edges := by
  constructor
  · rfl
  · decide

/-- A transaction whose declared write set lists address "A" twice. -/
def c7DupTx : SchedTransaction :=
  { hash := "0xT3", from_addr := "0xA3", to_addr := none, data := [],
    gas_limit := 21000, gas_price := 1, nonce := 0,
    read_set := [], write_set := ["A", "A"] }

/-- C7 counterexample: on the batch consisting of the single transaction
whose write set lists "A" twice, `analyze` emits the self-edge (0, 0),
refuting the claim that no self-edges are produced. -/
theorem C7_counterexample_self_edge :
    (0, 0) ∈ (ConflictAnalyzer.analyze [c7DupTx]).edges := by
  decide

/-- The two-transaction batch (a writer of "A" and a reader of "A") on
which the C7 witness instantiates the characterization. -/
def c7Txs : List SchedTransaction :=
  [{ hash := "0xT4", from_addr := "0xA4", to_addr := none, data := [],
     gas_limit := 21000, gas_price := 1, nonce := 0,
     read_set := [], write_set := ["A"] },
   { hash := "0xT5", from_addr := "0xA5", to_addr := none, data := [],
     gas_limit := 21000, gas_price := 1, nonce := 1,
     read_set := ["A"], write_set := [] }]

/-- Witness for C7: the characterization applied to a concrete
write/read-conflicting pair. -/
theorem C7_conflict_edges_exact_witness :
    (0, 1) ∈ (ConflictAnalyzer.analyze c7Txs).edges ∨
    (1, 0) ∈ (ConflictAnalyzer.analyze c7Txs).edges :=
  (C7_conflict_edges_exact c7Txs (by decide) 0 1).mpr
    ⟨by decide, by decide, by decide,
      Or.inr (Or.inl ⟨"A", by decide, by decide⟩)⟩

/-! ## Predictive pre-execution cache (predictive_execution.rs)

`try_use_pre_execution` looks the transaction's fingerprint key
`"{from}:{nonce}"` up in `pre_results` and, on a hit, accepts the entry
iff `is_pre_execution_valid` holds: the entry's age (in seconds) must not
exceed `prediction_window_ms / 1000` and its `is_valid` flag must be set.
The state-consistency and dependency checks of the spec's lookup
contract are `TODO` comments in the source (lines 339-343); the function
takes no current-pre-state argument and `PreExecutionResult` stores no
pre-state hash.  Both Rust functions are infallible
(`Ok(...)` on every path), so the embedding drops the `Result` wrapper.
The `f64` confidence field and the execution trace / final state carried
by `PreExecutionResult` are never consulted on the lookup path and are
omitted from the embedding (floating point). -/

/-- Association-list lookup standing for `HashMap::get` (keys are unique
in all the maps modelled here). -/
def lookupAssoc {α : Type} (m : List (String × α)) (k : String) : Option α :=
  (m.find? (fun p => p.1 = k)).map (fun p => p.2)

/-- Removal of a key, standing for `HashMap::remove` / overwrite-insert. -/
def removeKey {α : Type} (m : List (String × α)) (k : String) :
    List (String × α) :=
  m.filter (fun p => decide (p.1 ≠ k))

/-- `HashMap::insert` (overwrites any previous binding of the key). -/
def insertAssoc {α : Type} (m : List (String × α)) (k : String) (v : α) :
    List (String × α) :=
  (k, v) :: removeKey m k

/-- `Transaction` from predictive_execution.rs (lines 707-716; distinct
from the scheduler's transaction type — it has no read/write sets).
The Rust fields `from` / `to` are `from_addr` / `to_addr` here. -/
structure PredTransaction where
  hash : String
  from_addr : String
  to_addr : Option String
  data : List Nat
  gas_limit : Nat
  gas_price : Nat
  nonce : Nat
deriving DecidableEq, Repr

/-- `PreExecutionResult` (lines 782-791), restricted to the fields the
lookup path reads: `created_at` (seconds) and `is_valid`, plus the
identifying `path_id` / `snapshot_id`. -/
structure PreExecutionResultL where
  path_id : String
  snapshot_id : String
  created_at : Nat
  is_valid : Bool
deriving DecidableEq, Repr

/-- `PredictiveExecutionConfig`, restricted to its integer/boolean fields
(the `f64` fields never reach the lookup path). -/
structure PredictiveExecutionConfigL where
  enable_prediction : Bool
  prediction_depth : Nat
  max_pre_executions : Nat
  cache_size_limit : Nat
  prediction_window_ms : Nat
deriving DecidableEq, Repr

/-- The integer/boolean part of `PredictiveExecutionConfig::default()`:
prediction on, depth 5, 100 pre-executions, 1000 cache entries, 5000 ms
validity window. -/
def PredictiveExecutionConfigL.default : PredictiveExecutionConfigL :=
  { enable_prediction := true
    prediction_depth := 5
    max_pre_executions := 100
    cache_size_limit := 1000
    prediction_window_ms := 5000 }

/-- `PredictionKey::from_transaction` (lines 752-754): `"{from}:{nonce}"`. -/
def PredictionKey.from_transaction (tx : PredTransaction) : String :=
  tx.from_addr ++ ":" ++ toString tx.nonce

/-- `is_pre_execution_valid` (lines 327-346): expire entries older than
`prediction_window_ms / 1000` seconds, then return the entry's
`is_valid` flag.  (`now` is `chrono::Utc::now().timestamp()`; entries
are created in the past, so `created_at ≤ now`.)  The state-consistency
check against the current pre-state is a `TODO` in the source. -/
def is_pre_execution_valid (cfg : PredictiveExecutionConfigL) (now : Nat)
    (r : PreExecutionResultL) : Bool :=
  if now - r.created_at > cfg.prediction_window_ms / 1000 then false
  else r.is_valid

/-- `try_use_pre_execution` (lines 167-191). -/
def try_use_pre_execution (cfg : PredictiveExecutionConfigL) (now : Nat)
    (pre_results : List (String × PreExecutionResultL))
    (tx : PredTransaction) : Option PreExecutionResultL :=
  match lookupAssoc pre_results (PredictionKey.from_transaction tx) with
  | some cached =>
    if is_pre_execution_valid cfg now cached then some cached else none
  | none => none

/-- The cache entry of the C6 run. -/
def c6Entry : PreExecutionResultL :=
  { path_id := "path_0", snapshot_id := "snap_0", created_at := 100, is_valid := true }

/-- The transaction of the C6 run (matching fingerprint "0xCharlie:2"). -/
def c6Tx : PredTransaction :=
  { hash := "0x456", from_addr := "0xCharlie", to_addr := some "0xDave",
    data := [4, 5, 6], gas_limit := 50000, gas_price := 20000000000, nonce := 2 }

/-- C6 (code_bug): with the default configuration, a cache holding a
fresh, `is_valid` entry under the transaction's fingerprint key is
served purely from (a) key existence and (b) the 5-second age bound —
at age 5 s the entry is still served, at age 6 s it is not; no
pre-state-hash comparison exists anywhere on this path (the function
does not even receive the current pre-state, and the entry stores no
pre-state hash — the check is a `TODO` in the source). -/
theorem C6_lookup_serves_without_prestate_check :
    try_use_pre_execution PredictiveExecutionConfigL.default 100
      [("0xCharlie:2", c6Entry)] c6Tx = some c6Entry ∧
    try_use_pre_execution PredictiveExecutionConfigL.default 105
      [("0xCharlie:2", c6Entry)] c6Tx = some c6Entry ∧
    try_use_pre_execution PredictiveExecutionConfigL.default 106
      [("0xCharlie:2", c6Entry)] c6Tx = none := by
  exact ⟨rfl, rfl, rfl⟩

/-! ## Loader: two-tier compilation cache (loader/src/lib.rs, cache.rs)

`CompilationCache` pairs an in-memory LRU (capacity 1000) with a rocksdb
store.  The embedding keeps the LRU as a most-recent-first association
list (`lru::LruCache::get` promotes the entry, `put` inserts at the
front and evicts beyond the capacity) and the rocksdb tier as an
association list of the values whose `bincode` serializations it holds
(serialization round-trips, as established for the VM codec above; the
store's I/O errors are outside the embedded behaviour).  The two
compilers invoked on a miss (`MoveToRiscVCompiler::compile_sui_package`
and `DefaultCompiler::compile`) are separate components whose outcomes
the cache protocol only passes through; they enter as oracle fields. -/

/-- `ChainType` from `crates/adapter/src/types.rs`. -/
inductive ChainType where
  | Ethereum
  | Solana
  | Aptos
  | Sui
  | Bitcoin
deriving DecidableEq, Repr

/-- `ContractType` from `crates/adapter/src/types.rs`. -/
inductive ContractType where
  | EVM
  | Move
  | BPF
  | Script
deriving DecidableEq, Repr

/-- The `{:?}` (Debug) rendering of a `ContractType`, as used in the
cache key `format!` and in `LockedObject.object_type`. -/
def ContractType.debugStr : ContractType → String
  | .EVM => "EVM"
  | .Move => "Move"
  | .BPF => "BPF"
  | .Script => "Script"

/-- `ContractMeta` from `crates/adapter/src/types.rs`. -/
structure ContractMetaL where
  address : String
  chain_type : ChainType
  contract_type : ContractType
  bytecode : List Nat
  abi : Option String
  source_code : Option String
  compiler_version : Option String
  created_at : Nat
  creator : Option String
deriving DecidableEq, Repr

/-- `Mutability` from `crates/loader/src/types.rs`. -/
inductive Mutability where
  | Pure
  | View
  | NonPayable
  | Payable
deriving DecidableEq, Repr

/-- `ParamType` from `crates/loader/src/types.rs` (the Rust `Int` and
`String` constructors are `IntP` / `StringP` here to avoid clashes). -/
inductive ParamType where
  | Uint (n : Nat)
  | IntP (n : Nat)
  | BoolP
  | StringP
  | Bytes
  | Address
  | Array (t : ParamType)
  | Tuple (ts : List ParamType)

/-- `FunctionSignature` from `crates/loader/src/types.rs`. -/
structure FunctionSignatureL where
  name : String
  inputs : List ParamType
  outputs : List ParamType
  mutability : Mutability

/-- `ContractMetadata` from `crates/loader/src/types.rs` (`exports` is a
`HashMap` modelled as an association list). -/
structure ContractMetadataL where
  gas_metering : Bool
  memory_limit : Nat
  stack_limit : Nat
  call_depth_limit : Nat
  exports : List (String × FunctionSignatureL)

/-- `CompiledContract` from `crates/loader/src/types.rs`. -/
structure CompiledContractL where
  original_address : String
  source_type : ContractType
  risc_v_code : List Nat
  entry_points : List String
  metadata : ContractMetadataL
  compiled_at : Nat

/-- The LRU capacity fixed in `CompilationCache::new` (1000 entries). -/
def lruCap : Nat := 1000

/-- `lru::LruCache::get`: on a hit the entry is promoted to
most-recently-used; a miss leaves the cache unchanged. -/
def lruGet (m : List (String × CompiledContractL)) (k : String) :
    Option CompiledContractL × List (String × CompiledContractL) :=
  match lookupAssoc m k with
  | some v => (some v, (k, v) :: removeKey m k)
  | none => (none, m)

/-- `lru::LruCache::put`: insert/update at most-recently-used position,
evicting the least-recently-used entries beyond the capacity. -/
def lruPut (m : List (String × CompiledContractL)) (k : String)
    (v : CompiledContractL) : List (String × CompiledContractL) :=
  ((k, v) :: removeKey m k).take lruCap

/-- The two tiers of `CompilationCache`. -/
structure CompilationCacheState where
  memory_cache : List (String × CompiledContractL)
  disk_cache : List (String × CompiledContractL)

/-- `CompilationCache::get` (cache.rs lines 41-70): probe the memory LRU;
else probe the disk store, deserializing and populating the LRU on a
disk hit. -/
def CompilationCache.get (c : CompilationCacheState) (key : String) :
    Option CompiledContractL × CompilationCacheState :=
  match lruGet c.memory_cache key with
  | (some contract, m2) => (some contract, { c with memory_cache := m2 })
  | (none, _) =>
    match lookupAssoc c.disk_cache key with
    | some contract =>
      (some contract, { c with memory_cache := lruPut c.memory_cache key contract })
    | none => (none, c)

/-- `CompilationCache::put` (cache.rs lines 73-88): store on disk and in
the memory LRU. -/
def CompilationCache.put (c : CompilationCacheState) (key : String)
    (contract : CompiledContractL) : CompilationCacheState :=
  { disk_cache := insertAssoc c.disk_cache key contract
    memory_cache := lruPut c.memory_cache key contract }

/-- `CodeLoader::generate_cache_key` (lib.rs lines 108-116):
`"{address}-{bytecode.len}-{contract_type:?}"`. -/
def generate_cache_key (meta : ContractMetaL) : String :=
  meta.address ++ "-" ++ toString meta.bytecode.length ++ "-"
    ++ meta.contract_type.debugStr

/-- Outcomes of the two compilers `CodeLoader` dispatches to on a cache
miss (oracle: they are separate components of the loader crate whose
internals the cache protocol never inspects). -/
structure CompilerEnv where
  compile_move : ContractMetaL → Except String CompiledContractL
  compile_default : ContractMetaL → Except String CompiledContractL

/-- The compiler dispatch of `load_contract` (lib.rs lines 76-90): the
Move path uses the Move → RISC-V compiler, every other kind the default
compiler. -/
def dispatchCompile (env : CompilerEnv) (meta : ContractMetaL) :
    Except String CompiledContractL :=
  match meta.contract_type with
  | .Move => env.compile_move meta
  | _ => env.compile_default meta

/-- `CodeLoader::load_contract` (lib.rs lines 61-96): derive the cache
key, probe the two-tier cache, compile on a miss and store the result in
both tiers. -/
def load_contract (env : CompilerEnv) (c : CompilationCacheState)
    (meta : ContractMetaL) :
    CompilationCacheState × Except String CompiledContractL :=
  let cache_key := generate_cache_key meta
  match CompilationCache.get c cache_key with
  | (some cached, c1) => (c1, .ok cached)
  | (none, c1) =>
    match dispatchCompile env meta with
    | .error e => (c1, .error e)
    | .ok compiled => (CompilationCache.put c1 cache_key compiled, .ok compiled)

/-- C8 (confirmed): `load_contract` resolves artifacts through the
deterministic cache key `"{address}-{bytecode.len}-{bytecode kind}"` and
the two-tier protocol — a memory-LRU hit returns the cached artifact
immediately (the LRU merely promotes the entry); otherwise a persistent
hit returns the deserialized artifact and populates the LRU; otherwise
the compiler's result is stored in both the persistent store and the
LRU before being returned. -/
theorem C8_load_contract_two_tier (env : CompilerEnv)
    (c : CompilationCacheState) (meta : ContractMetaL) :
    (generate_cache_key meta =
      meta.address ++ "-" ++ toString meta.bytecode.length ++ "-"
        ++ meta.contract_type.debugStr) ∧
    (∀ v, lookupAssoc c.memory_cache (generate_cache_key meta) = some v →
      load_contract env c meta =
        ({ c with memory_cache :=
            (generate_cache_key meta, v) ::
              removeKey c.memory_cache (generate_cache_key meta) }, .ok v)) ∧
    (lookupAssoc c.memory_cache (generate_cache_key meta) = none →
      ∀ v, lookupAssoc c.disk_cache (generate_cache_key meta) = some v →
      load_contract env c meta =
        ({ c with memory_cache :=
            lruPut c.memory_cache (generate_cache_key meta) v }, .ok v)) ∧
    (lookupAssoc c.memory_cache (generate_cache_key meta) = none →
      lookupAssoc c.disk_cache (generate_cache_key meta) = none →
      ∀ compiled, dispatchCompile env meta = .ok compiled →
      load_contract env c meta =
        (CompilationCache.put c (generate_cache_key meta) compiled,
         .ok compiled)) := by
  refine ⟨rfl, ?_, ?_, ?_⟩
  · intro v hv
    simp only [load_contract, CompilationCache.get, lruGet, hv]
  · intro hmem v hdisk
    simp only [load_contract, CompilationCache.get, lruGet, hmem, hdisk]
  · intro hmem hdisk compiled hcomp
    simp only [load_contract, CompilationCache.get, lruGet, hmem, hdisk, hcomp]

/-- A concrete Move contract meta for the C8 witness; its cache key is
"0x123-4-Move". -/
def c8Meta : ContractMetaL :=
  { address := "0x123", chain_type := .Sui, contract_type := .Move,
    bytecode := [0, 1, 2, 3], abi := none, source_code := none,
    compiler_version := none, created_at := 0, creator := none }

/-- A concrete compiled artifact for the C8 witness. -/
def c8Contract : CompiledContractL :=
  { original_address := "0x123", source_type := .Move,
    risc_v_code := [1, 2, 3, 4], entry_points := ["main"],
    metadata := { gas_metering := true, memory_limit := 1024,
                  stack_limit := 512, call_depth_limit := 64, exports := [] },
    compiled_at := 1234567890 }

/-- A compiler environment whose Move path yields `c8Contract`. -/
def c8Env : CompilerEnv :=
  { compile_move := fun _ => .ok c8Contract
    compile_default := fun _ => .ok c8Contract }

/-- Witness for C8: the three tiers exercised at concrete cache states —
a memory hit, a disk hit (which populates the LRU), and a full miss
(which compiles and populates both tiers). -/
theorem C8_load_contract_two_tier_witness :
    load_contract c8Env ⟨[("0x123-4-Move", c8Contract)], []⟩ c8Meta =
      (⟨[("0x123-4-Move", c8Contract)], []⟩, .ok c8Contract) ∧
    load_contract c8Env ⟨[], [("0x123-4-Move", c8Contract)]⟩ c8Meta =
      (⟨[("0x123-4-Move", c8Contract)], [("0x123-4-Move", c8Contract)]⟩,
        .ok c8Contract) ∧
    load_contract c8Env ⟨[], []⟩ c8Meta =
      (⟨[("0x123-4-Move", c8Contract)], [("0x123-4-Move", c8Contract)]⟩,
        .ok c8Contract) := by
  refine ⟨?_, ?_, ?_⟩
  · exact (C8_load_contract_two_tier c8Env
      ⟨[("0x123-4-Move", c8Contract)], []⟩ c8Meta).2.1 c8Contract rfl
  · exact (C8_load_contract_two_tier c8Env
      ⟨[], [("0x123-4-Move", c8Contract)]⟩ c8Meta).2.2.1 rfl c8Contract rfl
  · exact (C8_load_contract_two_tier c8Env
      ⟨[], []⟩ c8Meta).2.2.2 rfl rfl c8Contract rfl

/-! ## Off-chain execution manager (node/src/offchain_execution.rs)

`execute_offchain` runs the six steps in sequence, propagating any error
with `?`.  The embedding threads the manager's state (the locks map, the
sessions map and the loader's compilation cache) explicitly and takes an
environment of oracle outcomes for the external calls: the Sui adapter
(`get_contract_meta`, `get_object_bcs_data`, `get_object_data`,
`build_move_call_transaction`, `dry_run_transaction`), `serde_json`
parsing, the VM manager's `create_instance`, the wall clock, and the two
compilers behind the loader.  The per-session VM created by the manager
is `CkbVmInstance` of ckb.rs (the `ckb-vm` feature path); its `load_code`
rejects only empty code and its `execute` echoes the input with
`success = true`.  JSON values are carried as their rendered text
(`JsonValue.raw`); `serde_json` renders objects with keys in sorted
order (`BTreeMap`), which the layout builders below follow. -/

/-- A `serde_json::Value`, carried as rendered JSON text. -/
structure JsonValue where
  raw : String
deriving DecidableEq, Repr

/-- `LockedObject` from offchain_execution.rs (lines 38-47). -/
structure LockedObject where
  object_id : String
  object_type : String
  version : Nat
  owner : String
  content : JsonValue
  locked_at : Nat
  lock_hash : String
deriving DecidableEq, Repr

/-- `SessionStatus` (lines 72-80). -/
inductive SessionStatus where
  | Initializing
  | ObjectsLocked
  | StateSync
  | Executing
  | Completed
  | Failed (reason : String)
deriving DecidableEq, Repr

/-- `ExecutionRequest` (lines 83-91). -/
structure OffchainRequest where
  session_id : String
  package_id : String
  function_name : String
  arguments : List JsonValue
  shared_objects : List String
  gas_budget : Nat
deriving DecidableEq, Repr

/-- `ObjectChanges` (lines 123-128). -/
structure ObjectChanges where
  fields_modified : List String
  fields_added : List String
  fields_removed : List String
deriving DecidableEq, Repr

/-- `ModifiedObject` (lines 106-112). -/
structure ModifiedObject where
  object_id : String
  old_version : Nat
  new_content : JsonValue
  changes : ObjectChanges
deriving DecidableEq, Repr

/-- `CreatedObject` (lines 115-120). -/
structure CreatedObject where
  object_type : String
  content : JsonValue
  owner : String
deriving DecidableEq, Repr

/-- `OffchainExecutionResult` (lines 94-103). -/
structure OffchainExecutionResult where
  session_id : String
  success : Bool
  gas_used : Nat
  modified_objects : List ModifiedObject
  new_objects : List CreatedObject
  error : Option String
  execution_time_ms : Nat
deriving DecidableEq, Repr

/-- The private `SyncResult` (lines 676-680). -/
structure SyncResultL where
  modified_objects : List ModifiedObject
  new_objects : List CreatedObject
deriving DecidableEq, Repr

/-- `CkbVmInstance` of ckb.rs (the session VM created by
`VmManager::create_instance(Some(VmType::CkbVM))`), `ckb-vm` feature
path: the only state it keeps is the limits and the loaded flag. -/
structure CkbVmInstanceL where
  limits : ExecutionLimits
  code_loaded : Bool
deriving DecidableEq, Repr

/-- `CkbVmInstance::new()`. -/
def CkbVmInstanceL.new : CkbVmInstanceL :=
  { limits := ExecutionLimits.default, code_loaded := false }

/-- `CkbVmInstance::load_code` (ckb.rs lines 53-76): reject empty code,
otherwise mark the code loaded. -/
def ckbLoadCode (vm : CkbVmInstanceL) (code : List Nat) :
    Except String CkbVmInstanceL :=
  if code = [] then .error "Code loading failed: Empty code"
  else .ok { vm with code_loaded := true }

/-- `CkbVmInstance::execute` (ckb.rs lines 78-115, `ckb-vm` feature
path): require loaded code; the simulated result echoes the input with
`gas = input.len + 1000` and `cycles = 2 * gas`. -/
def ckbExecute (vm : CkbVmInstanceL) (input : List Nat) :
    Except String VmExecutionResult :=
  if ¬ vm.code_loaded then .error "Execution failed: No code loaded"
  else .ok { success := true, output := input,
             gas_used := input.length + 1000,
             cycles_used := (input.length + 1000) * 2, error := none }

/-- `ExecutionSession` (lines 50-57); the VM instance owned by the
session is a `CkbVmInstance`. -/
structure SessionRec where
  session_id : String
  package_id : String
  locked_objects : List String
  vm : CkbVmInstanceL
  created_at : Nat
  status : SessionStatus
deriving DecidableEq, Repr

/-- The object-data JSON returned by `SuiAdapter::get_object_data`, seen
through the paths `prepare_object_memory_layout` reads
(`data.type`, `data.version`, `data.content`, `data.owner`,
`data.storageRebate`); absent string fields are `none`. -/
structure ObjectDataL where
  type_str : Option String
  version_str : Option String
  content : JsonValue
  owner : JsonValue
  storage_rebate : JsonValue
deriving DecidableEq, Repr

/-- The dry-run response of `SuiAdapter::dry_run_transaction`, seen
through the path `["effects"]["status"]["status"]` the manager checks. -/
structure DryRunResultL where
  status : String
deriving DecidableEq, Repr

/-- The manager's mutable state: the process-wide locks map, the
sessions map, and the loader's two-tier compilation cache. -/
structure NodeState where
  locked_objects : List (String × LockedObject)
  execution_sessions : List (String × SessionRec)
  cache : CompilationCacheState

/-- Oracle outcomes of the manager's external calls. -/
structure OffchainEnv where
  now : Nat
  elapsed_ms : Nat
  get_contract_meta : String → Except String ContractMetaL
  parse_json : String → Except String JsonValue
  create_instance : Except String Unit
  get_object_bcs_data : String → Except String (List Nat)
  get_object_data : String → Except String ObjectDataL
  build_move_call_tx : String → String → String → String → List String →
    List JsonValue → Nat → Except String String
  dry_run_transaction : String → Except String DryRunResultL
  hash_tx : String → String
  compilers : CompilerEnv

/-- `get_object_version` (lines 486-489): the simplified implementation
always returns version 1. -/
def get_object_version (_object_id : String) : Except String Nat := .ok 1

/-- `generate_lock_hash` (lines 491-494). -/
def generate_lock_hash (object_id : String) : String :=
  "lock_" ++ object_id ++ "_hash"

/-- The loop body of `lock_mainnet_objects` (lines 202-237): fetch the
object's meta, build a `LockedObject` and insert it into the locks map —
overwriting whatever binding the key already had, with no conflict check
— then recurse; an adapter or JSON error aborts, leaving the insertions
already made in place. -/
def lockLoop (env : OffchainEnv) (st : NodeState) (acc : List LockedObject) :
    List String → NodeState × Except String (List LockedObject)
  | [] => (st, .ok acc.reverse)
  | object_id :: rest =>
    match env.get_contract_meta object_id with
    | .error e => (st, .error e)
    | .ok contract_meta =>
      match get_object_version object_id with
      | .error e => (st, .error e)
      | .ok version =>
        match env.parse_json (contract_meta.abi.getD "\x7b\x7d") with
        | .error e => (st, .error e)
        | .ok content =>
          let locked_object : LockedObject :=
            { object_id := object_id
              object_type := contract_meta.contract_type.debugStr
              version := version
              owner := contract_meta.creator.getD "shared"
              content := content
              locked_at := env.now
              lock_hash := generate_lock_hash object_id }
          lockLoop env
            { st with locked_objects :=
                insertAssoc st.locked_objects object_id locked_object }
            (locked_object :: acc) rest

/-- `lock_mainnet_objects` (lines 202-237). -/
def lock_mainnet_objects (env : OffchainEnv) (st : NodeState)
    (object_ids : List String) :
    NodeState × Except String (List LockedObject) :=
  lockLoop env st [] object_ids

/-- `create_execution_session` (lines 240-290): create a VM instance,
fetch the package meta, obtain the compiled contract through the loader,
load its RISC-V code, store the session (status `ObjectsLocked`) in the
sessions map — and return a second session value built around a second,
freshly created (unloaded) VM instance, as the source does. -/
def create_execution_session (env : OffchainEnv) (st : NodeState)
    (request : OffchainRequest) (locked_objects : List LockedObject) :
    NodeState × Except String SessionRec :=
  match env.create_instance with
  | .error e => (st, .error e)
  | .ok _ =>
    match env.get_contract_meta request.package_id with
    | .error e => (st, .error e)
    | .ok package_meta =>
      match load_contract env.compilers st.cache package_meta with
      | (cache1, .error e) => ({ st with cache := cache1 }, .error e)
      | (cache1, .ok compiled_contract) =>
        let st1 := { st with cache := cache1 }
        match ckbLoadCode CkbVmInstanceL.new compiled_contract.risc_v_code with
        | .error e => (st1, .error e)
        | .ok vm_instance =>
          let session : SessionRec :=
            { session_id := request.session_id
              package_id := request.package_id
              locked_objects := locked_objects.map (fun o => o.object_id)
              vm := vm_instance
              created_at := env.now
              status := .ObjectsLocked }
          let sessions2 := insertAssoc st1.execution_sessions request.session_id session
          let st2 := { st1 with execution_sessions := sessions2 }
          match env.create_instance with
          | .error e => (st2, .error e)
          | .ok _ =>
            (st2, .ok
              { session_id := request.session_id
                package_id := request.package_id
                locked_objects := locked_objects.map (fun o => o.object_id)
                vm := CkbVmInstanceL.new
                created_at := env.now
                status := .ObjectsLocked })

/-- Update the stored session's status, when the session exists
(the `if let Some(stored_session) = ... get_mut` pattern). -/
def updateStatus (st : NodeState) (session_id : String)
    (status : SessionStatus) : NodeState :=
  match lookupAssoc st.execution_sessions session_id with
  | some stored =>
    { st with execution_sessions :=
        insertAssoc st.execution_sessions session_id { stored with status := status } }
  | none => st

/-- A byte rendered as two lowercase hex digits (`format!("\x7b:02x\x7d", b)`). -/
def byteHex (b : Nat) : String :=
  let digit : Nat → Char := fun n =>
    if n < 10 then Char.ofNat (48 + n) else Char.ofNat (87 + n)
  String.mk [digit (b / 16 % 16), digit (b % 16)]

/-- The hex rendering of a byte string, as built for `bcs_data`. -/
def hexOfBytes (bs : List Nat) : String :=
  String.join (bs.map byteHex)

/-- A JSON string literal (the values used contain no characters that
JSON escapes). -/
def jsonStr (s : String) : String := "\"" ++ s ++ "\""

/-- The UTF-8 bytes of a string (`String::as_bytes().to_vec()`). -/
def strToBytes (s : String) : List Nat :=
  s.toUTF8.toList.map (fun b => b.toNat)

/-- `prepare_object_memory_layout` (lines 536-561): the `json!` object
rendered by `serde_json` (keys in sorted order). -/
def prepare_object_memory_layout (object_id : String) (bcs_data : List Nat)
    (object_data : ObjectDataL) : List Nat :=
  strToBytes ("\x7b\"bcs_data\":" ++ jsonStr (hexOfBytes bcs_data)
    ++ ",\"content\":" ++ object_data.content.raw
    ++ ",\"object_id\":" ++ jsonStr object_id
    ++ ",\"object_type\":" ++ jsonStr (object_data.type_str.getD "unknown")
    ++ ",\"owner\":" ++ object_data.owner.raw
    ++ ",\"storage_rebate\":" ++ object_data.storage_rebate.raw
    ++ ",\"version\":" ++ jsonStr (object_data.version_str.getD "0")
    ++ "\x7d")

/-- The loop of `sync_state_to_offchain` (lines 310-348): for each locked
object id that is present in the locks map, fetch its BCS bytes and its
object data, build the memory layout and load it into the stored
session's VM (the source re-uses `load_code` in place of a dedicated
state-loading entry point). -/
def syncLoop (env : OffchainEnv) (st : NodeState) (session : SessionRec) :
    List String → NodeState × Except String Unit
  | [] => (st, .ok ())
  | object_id :: rest =>
    match lookupAssoc st.locked_objects object_id with
    | none => syncLoop env st session rest
    | some _ =>
      match env.get_object_bcs_data object_id with
      | .error e => (st, .error e)
      | .ok bcs_data =>
        match env.get_object_data object_id with
        | .error e => (st, .error e)
        | .ok object_data =>
          match lookupAssoc st.execution_sessions session.session_id with
          | some stored =>
            let memory_layout :=
              prepare_object_memory_layout object_id bcs_data object_data
            match ckbLoadCode stored.vm memory_layout with
            | .error e => (st, .error e)
            | .ok vm2 =>
              let sessions2 :=
                insertAssoc st.execution_sessions session.session_id
                  { stored with vm := vm2 }
              syncLoop env { st with execution_sessions := sessions2 } session rest
          | none => (st, .error ("Session not found: " ++ session.session_id))

/-- `sync_state_to_offchain` (lines 293-355). -/
def sync_state_to_offchain (env : OffchainEnv) (st : NodeState)
    (session : SessionRec) : NodeState × Except String Unit :=
  syncLoop env (updateStatus st session.session_id .StateSync) session
    session.locked_objects

/-- `prepare_execution_input` (lines 496-505): the request serialized as
a `json!` object (keys in sorted order). -/
def prepare_execution_input (request : OffchainRequest) : List Nat :=
  strToBytes ("\x7b\"arguments\":["
    ++ String.intercalate "," (request.arguments.map (fun a => a.raw))
    ++ "],\"function\":" ++ jsonStr request.function_name
    ++ ",\"gas_budget\":" ++ toString request.gas_budget
    ++ "\x7d")

/-- `execute_in_ckb_vm` (lines 358-401): mark the session Executing,
execute the serialized request in the stored session's VM, and set the
final status from the result. -/
def execute_in_ckb_vm (_env : OffchainEnv) (st : NodeState)
    (session : SessionRec) (request : OffchainRequest) :
    NodeState × Except String VmExecutionResult :=
  let st := updateStatus st session.session_id .Executing
  let execution_input := prepare_execution_input request
  match lookupAssoc st.execution_sessions session.session_id with
  | some stored =>
    match ckbExecute stored.vm execution_input with
    | .error e => (st, .error e)
    | .ok result =>
      let status := if result.success then SessionStatus.Completed
                    else .Failed (result.error.getD "Unknown error")
      let sessions2 :=
        insertAssoc st.execution_sessions session.session_id
          { stored with status := status }
      ({ st with execution_sessions := sessions2 }, .ok result)
  | none => (st, .error ("Session not found: " ++ session.session_id))

/-- `extract_modified_objects` (lines 507-511): the simplified
implementation returns the empty list. -/
def extract_modified_objects (_output : List Nat) :
    Except String (List ModifiedObject) := .ok []

/-- `extract_created_objects` (lines 513-517): likewise empty. -/
def extract_created_objects (_output : List Nat) :
    Except String (List CreatedObject) := .ok []

/-- `build_and_execute_update_transaction` (lines 564-623): build a
`counter::set_value` Move call, dry-run it, require status "success",
and return the mock hash of the transaction data.  (The source's error
message interpolates the whole status object; only the success check is
observable here.) -/
def build_and_execute_update_transaction (env : OffchainEnv)
    (session : SessionRec) (modified_obj : ModifiedObject) :
    Except String String :=
  match env.build_move_call_tx
      "0x105b79ec1ee0a31c2faa544104f93b084f78cd8a9d9bb6a02654db21ac9fef8f"
      session.package_id "counter" "set_value" []
      [⟨jsonStr modified_obj.object_id⟩, ⟨"100"⟩] 50000 with
  | .error e => .error e
  | .ok tx_data =>
    match env.dry_run_transaction tx_data with
    | .error e => .error e
    | .ok dry_run_result =>
      if dry_run_result.status ≠ "success" then
        .error ("Dry run failed: " ++ dry_run_result.status)
      else
        .ok (env.hash_tx tx_data)

/-- `build_and_execute_create_transaction` (lines 626-672). -/
def build_and_execute_create_transaction (env : OffchainEnv)
    (session : SessionRec) (_new_obj : CreatedObject) :
    Except String String :=
  match env.build_move_call_tx
      "0x105b79ec1ee0a31c2faa544104f93b084f78cd8a9d9bb6a02654db21ac9fef8f"
      session.package_id "counter" "create" [] [] 50000 with
  | .error e => .error e
  | .ok tx_data =>
    match env.dry_run_transaction tx_data with
    | .error e => .error e
    | .ok dry_run_result =>
      if dry_run_result.status ≠ "success" then
        .error ("Dry run failed: " ++ dry_run_result.status)
      else
        .ok (env.hash_tx tx_data)

/-- The loop over modified objects in `sync_results_to_mainnet`. -/
def syncModifiedLoop (env : OffchainEnv) (session : SessionRec) :
    List ModifiedObject → Except String Unit
  | [] => .ok ()
  | m :: rest =>
    match build_and_execute_update_transaction env session m with
    | .error e => .error e
    | .ok _ => syncModifiedLoop env session rest

/-- The loop over created objects in `sync_results_to_mainnet`. -/
def syncCreatedLoop (env : OffchainEnv) (session : SessionRec) :
    List CreatedObject → Except String Unit
  | [] => .ok ()
  | c :: rest =>
    match build_and_execute_create_transaction env session c with
    | .error e => .error e
    | .ok _ => syncCreatedLoop env session rest

/-- `sync_results_to_mainnet` (lines 404-469): skip entirely when the VM
result was unsuccessful; otherwise extract the modified/created objects
from the output and dry-run one update/create transaction per entry. -/
def sync_results_to_mainnet (env : OffchainEnv) (st : NodeState)
    (session : SessionRec) (execution_result : VmExecutionResult) :
    NodeState × Except String SyncResultL :=
  if ¬ execution_result.success then (st, .ok ⟨[], []⟩)
  else
    match extract_modified_objects execution_result.output with
    | .error e => (st, .error e)
    | .ok modified_objects =>
      match extract_created_objects execution_result.output with
      | .error e => (st, .error e)
      | .ok new_objects =>
        match syncModifiedLoop env session modified_objects with
        | .error e => (st, .error e)
        | .ok _ =>
          match syncCreatedLoop env session new_objects with
          | .error e => (st, .error e)
          | .ok _ => (st, .ok ⟨modified_objects, new_objects⟩)

/-- `unlock_mainnet_objects` (lines 472-483): remove every id of the
request's shared objects from the locks map; always succeeds. -/
def unlock_mainnet_objects (st : NodeState) (object_ids : List String) :
    NodeState × Except String Unit :=
  (object_ids.foldl
    (fun s object_id =>
      { s with locked_objects := removeKey s.locked_objects object_id }) st,
   .ok ())

/-- `execute_offchain` (lines 149-199): the six steps in sequence, each
fallible step propagated with `?` — so a failure in steps 2-5 returns
before step 6 runs. -/
def execute_offchain (env : OffchainEnv) (st : NodeState)
    (request : OffchainRequest) :
    NodeState × Except String OffchainExecutionResult :=
  match lock_mainnet_objects env st request.shared_objects with
  | (st1, .error e) => (st1, .error e)
  | (st1, .ok locked_objects) =>
    match create_execution_session env st1 request locked_objects with
    | (st2, .error e) => (st2, .error e)
    | (st2, .ok session) =>
      match sync_state_to_offchain env st2 session with
      | (st3, .error e) => (st3, .error e)
      | (st3, .ok _) =>
        match execute_in_ckb_vm env st3 session request with
        | (st4, .error e) => (st4, .error e)
        | (st4, .ok execution_result) =>
          match sync_results_to_mainnet env st4 session execution_result with
          | (st5, .error e) => (st5, .error e)
          | (st5, .ok sync_result) =>
            match unlock_mainnet_objects st5 request.shared_objects with
            | (st6, .error e) => (st6, .error e)
            | (st6, .ok _) =>
              (st6, .ok
                { session_id := request.session_id
                  success := execution_result.success
                  gas_used := execution_result.gas_used
                  modified_objects := sync_result.modified_objects
                  new_objects := sync_result.new_objects
                  error := execution_result.error
                  execution_time_ms := env.elapsed_ms })

/-- The meta of the shared object "0x4ea3" in the C1 run. -/
def c1ObjMeta : ContractMetaL :=
  { address := "0x4ea3", chain_type := .Sui, contract_type := .Move,
    bytecode := [], abi := none, source_code := none,
    compiler_version := none, created_at := 0, creator := none }

/-- The C1 environment: the adapter serves the shared object's meta but
fails on the package fetch of step 2 (a transient RPC failure). -/
def c1Env : OffchainEnv :=
  { now := 1000
    elapsed_ms := 5
    get_contract_meta := fun addr =>
      if addr = "0x4ea3" then .ok c1ObjMeta
      else .error "StateFetchError: failed to fetch package meta"
    parse_json := fun s => .ok ⟨s⟩
    create_instance := .ok ()
    get_object_bcs_data := fun _ => .error "unused"
    get_object_data := fun _ => .error "unused"
    build_move_call_tx := fun _ _ _ _ _ _ _ => .error "unused"
    dry_run_transaction := fun _ => .error "unused"
    hash_tx := fun _ => "0x0"
    compilers := ⟨fun _ => .error "unused", fun _ => .error "unused"⟩ }

/-- The empty manager state. -/
def emptyNodeState : NodeState := ⟨[], [], ⟨[], []⟩⟩

/-- The C1 request: one shared object, package "0xpkg". -/
def c1Request : OffchainRequest :=
  { session_id := "s1", package_id := "0xpkg",
    function_name := "counter::increment", arguments := [],
    shared_objects := ["0x4ea3"], gas_budget := 10000 }

/-- The lock step 1 inserts for "0x4ea3" in the C1 run. -/
def c1Lock : LockedObject :=
  { object_id := "0x4ea3", object_type := "Move", version := 1,
    owner := "shared", content := ⟨"\x7b\x7d"⟩, locked_at := 1000,
    lock_hash := "lock_0x4ea3_hash" }

/-- C1 (code_bug): when step 1 completes (the shared object "0x4ea3" is
locked) and step 2 fails (the package meta fetch errors), the `?` on
step 2 returns the error immediately — step 6 never runs and the
object's lock is still present in the locks map after `execute_offchain`
returns. -/
theorem C1_lock_remains_after_failure :
    (execute_offchain c1Env emptyNodeState c1Request).2 =
      .error "StateFetchError: failed to fetch package meta" ∧
    lookupAssoc (execute_offchain c1Env emptyNodeState c1Request).1.locked_objects
      "0x4ea3" = some c1Lock := by
  exact ⟨rfl, rfl⟩

/-- The lock held by another session before the C2 call. -/
def c2OldLock : LockedObject :=
  { object_id := "0x5", object_type := "Move", version := 1,
    owner := "oldOwner", content := ⟨"\x7b\x7d"⟩, locked_at := 500,
    lock_hash := "lock_0x5_hash" }

/-- The meta of object "0x5" in the C2 run (its creator differs from the
old lock's owner, making the overwrite visible). -/
def c2Meta : ContractMetaL :=
  { address := "0x5", chain_type := .Sui, contract_type := .Move,
    bytecode := [], abi := none, source_code := none,
    compiler_version := none, created_at := 0, creator := some "0xbob" }

/-- The meta of object "a" in the C2 partial-failure run. -/
def c2MetaA : ContractMetaL :=
  { address := "a", chain_type := .Sui, contract_type := .Move,
    bytecode := [], abi := none, source_code := none,
    compiler_version := none, created_at := 0, creator := none }

/-- The C2 environment: metas for "0x5" and "a"; the fetch for any other
object (in particular "b") fails. -/
def c2Env : OffchainEnv :=
  { now := 1000
    elapsed_ms := 5
    get_contract_meta := fun addr =>
      if addr = "0x5" then .ok c2Meta
      else if addr = "a" then .ok c2MetaA
      else .error "rpc: object b unavailable"
    parse_json := fun s => .ok ⟨s⟩
    create_instance := .ok ()
    get_object_bcs_data := fun _ => .error "unused"
    get_object_data := fun _ => .error "unused"
    build_move_call_tx := fun _ _ _ _ _ _ _ => .error "unused"
    dry_run_transaction := fun _ => .error "unused"
    hash_tx := fun _ => "0x0"
    compilers := ⟨fun _ => .error "unused", fun _ => .error "unused"⟩ }

/-- The state in which "0x5" is already locked. -/
def c2St : NodeState := ⟨[("0x5", c2OldLock)], [], ⟨[], []⟩⟩

/-- The lock the C2 call silently installs over the existing one. -/
def c2NewLock : LockedObject :=
  { object_id := "0x5", object_type := "Move", version := 1,
    owner := "0xbob", content := ⟨"\x7b\x7d"⟩, locked_at := 1000,
    lock_hash := "lock_0x5_hash" }

/-- The lock left behind for "a" when the fetch for "b" fails mid-loop. -/
def c2ALock : LockedObject :=
  { object_id := "a", object_type := "Move", version := 1,
    owner := "shared", content := ⟨"\x7b\x7d"⟩, locked_at := 1000,
    lock_hash := "lock_a_hash" }

/-- C2 (code_bug): `lock_mainnet_objects` performs no conflict check —
called while "0x5" is already locked it succeeds and silently replaces
the existing lock instead of aborting with LockConflict; and when the
adapter fails on the second object of a two-object request, the lock
already inserted for the first object stays in the map (no rollback of
partially acquired locks). -/
theorem C2_no_lock_conflict_detection :
    (lock_mainnet_objects c2Env c2St ["0x5"]).2 = .ok [c2NewLock] ∧
    lookupAssoc (lock_mainnet_objects c2Env c2St ["0x5"]).1.locked_objects "0x5"
      = some c2NewLock ∧
    c2NewLock ≠ c2OldLock ∧
    (lock_mainnet_objects c2Env emptyNodeState ["a", "b"]).2 =
      .error "rpc: object b unavailable" ∧
    lookupAssoc (lock_mainnet_objects c2Env emptyNodeState ["a", "b"]).1.locked_objects
      "a" = some c2ALock := by
  exact ⟨rfl, rfl, by decide, rfl, rfl⟩
